import Mathlib

/-!
# Verification of the slurmpy job-submission module

A shallow embedding of `src/slurmpy.py`: the pure parts of each function are
translated into executable Lean definitions; side effects (the filesystem, the
captured output of the external `sbatch`/`sacct` subprocesses, console output)
are made explicit as parameters and result fields.  Python exceptions are
modelled by `Option`/`Except`: an `Option.none` (or `Except.error`) in an
outer layer stands for an uncaught exception at the corresponding point of
the source.
-/

namespace Slurmpy

/-- A Python value in an option slot: `None`, a string, or an integer.
These are the value kinds the module's keyword parameters actually receive. -/
inductive PyVal where
  | none
  | str (s : String)
  | int (n : Int)
deriving DecidableEq

/-- Python truthiness (`if value:`): `None` is falsy, a string is truthy iff
nonempty, an integer is truthy iff nonzero. -/
def pyTruthy : PyVal → Bool
  | PyVal.none => false
  | PyVal.str s => s != ""
  | PyVal.int n => n != 0

/-- Python's `str()` / `'{}'.format(value)` rendering of a value. -/
def pyFormat : PyVal → String
  | PyVal.none => "None"
  | PyVal.str s => s
  | PyVal.int n => toString n

/-- Split a character list at every character satisfying `p`, keeping empty
pieces, exactly as Python's `str.split(sep)` does (`n` separators give
`n + 1` pieces).  `cur` accumulates the current piece in reverse. -/
def splitChars (p : Char → Bool) : List Char → List Char → List String
  | [], cur => [⟨cur.reverse⟩]
  | c :: rest, cur =>
      if p c then (⟨cur.reverse⟩ : String) :: splitChars p rest []
      else splitChars p rest (c :: cur)

/-- Python's argumentless `str.split()`: split on whitespace runs, dropping
empty pieces (leading and trailing whitespace produces no token). -/
def pySplit (s : String) : List String :=
  (splitChars (fun c => c.isWhitespace) s.data []).filter fun t => t != ""

/-- Shared result parsing of `SubmitSlurmFile` (slurmpy.py lines 54-59) and
`WrapSlurmCommand` (lines 153-156):
`if stdout.split()[0] == 'Submitted': jobid = stdout.split()[-1] else: jobid = None`.
The outer `Option` models the `IndexError` raised by `split()[0]` when the
captured text has no token: `none` = exception, `some jid` = normal return. -/
def parseJobId (captured : String) : Option (Option String) :=
  match pySplit captured with
  | [] => none
  | t :: ts =>
      some (if t = "Submitted" then some ((t :: ts).getLast (List.cons_ne_nil t ts))
            else none)

/-- The filesystem visible to the module: a list of existing directories and
an association list of file path to file content. -/
structure FS where
  dirs : List String
  files : List (String × String)
deriving DecidableEq

/-- `os.path.exists`: the path is an existing directory or an existing file. -/
def pathExists (fs : FS) (p : String) : Bool :=
  fs.dirs.contains p || fs.files.any fun q => q.1 == p

/-- The `options` string built by `SubmitSlurmFile` (lines 43-45) and the
passthrough-parameter loop of `WrapSlurmCommand` (lines 133-134):
`'--{}={} '.format(arg, slurm_params[arg])` for every entry, in order,
with no truthiness check on the value. -/
def renderParams : List (String × PyVal) → String
  | [] => ""
  | p :: rest => "--" ++ p.1 ++ "=" ++ pyFormat p.2 ++ " " ++ renderParams rest

/-- The observable outcome of `SubmitSlurmFile`: the returned job id
(outer `none` = exception), whether `sbatch` was invoked, the argument
vector handed to `subprocess.run`, and the lines printed to the console. -/
structure SubmitResult where
  jobid : Option (Option String)
  invoked : Bool
  argv : List String
  printed : List String
deriving DecidableEq

/-- `SubmitSlurmFile(filename, **slurm_params)` (lines 23-59).  `captured` is
the merged stdout/stderr text the `sbatch` subprocess would produce; it is
only consulted when the file exists, since the missing-file branch returns
before `subprocess.run`. -/
def SubmitSlurmFile (fs : FS) (filename : String)
    (slurm_params : List (String × PyVal)) (captured : String) : SubmitResult :=
  if pathExists fs filename = false then
    { jobid := some none, invoked := false, argv := [],
      printed := [filename ++ " not found"] }
  else
    { jobid := parseJobId captured, invoked := true,
      argv := ["sbatch", renderParams slurm_params, filename],
      printed := [captured] }

/-- The `command` parameter of `WrapSlurmCommand` and `WriteSlurmFile`:
a bare string or a list of command lines. -/
inductive Command where
  | str (s : String)
  | list (l : List String)
deriving DecidableEq

/-- `if type(command) is str: command = [command]` (lines 142-143, 287-288):
the list the command is normalised to before being newline-joined. -/
def Command.toList : Command → List String
  | Command.str s => [s]
  | Command.list l => l

/-- `os.mkdir`: creates the directory, raising `FileExistsError` when the
path already exists (single level, not recursive). -/
def mkdirFS (dirs : List String) (d : String) : Except String (List String) :=
  if dirs.contains d then Except.error "FileExistsError"
  else Except.ok (dirs ++ [d])

/-- `if not os.path.exists(output_directory): os.mkdir(output_directory)`
(lines 137-138 and 268-269).  The `Bool` records whether `mkdir` was
attempted. -/
def ensureOutputDirectory (dirs : List String) (d : String) :
    Except String (List String) × Bool :=
  if dirs.contains d = false then (mkdirFS dirs d, true)
  else (Except.ok dirs, false)

/-- The `sbatch ...` command line built by `WrapSlurmCommand`
(lines 119-145), factored out of the filesystem effect: each conditional
append in source order, then every passthrough parameter, then the output
and error redirections, then the quoted `--wrap` payload. -/
def wrapCmdline (command : Command) (jobname : PyVal) (output_directory : PyVal)
    (dependency : PyVal) (email : PyVal) (threads : PyVal) (deptype : String)
    (slurm_params : List (String × PyVal)) : String :=
  let slurm := "sbatch "
  let slurm := if pyTruthy jobname then
      slurm ++ "--job-name=" ++ pyFormat jobname ++ " " else slurm
  let slurm := if pyTruthy email then
      slurm ++ "--mail-user=" ++ pyFormat email ++ " --mail-type=END " else slurm
  let slurm := if pyTruthy dependency then
      slurm ++ "--dependency=after" ++ deptype ++ ":" ++ pyFormat dependency ++ " "
    else slurm
  let slurm := if pyTruthy threads then
      slurm ++ "--cpus-per-task=" ++ pyFormat threads ++ " " else slurm
  let slurm := slurm ++ renderParams slurm_params
  let slurm := if pyTruthy output_directory then
      slurm ++ "--output=" ++ pyFormat output_directory ++ "/%x-%j.out "
            ++ "--error=" ++ pyFormat output_directory ++ "/%x-%j.err "
    else slurm
  slurm ++ "--wrap \"" ++ String.intercalate "\n" command.toList ++ "\""

/-- `WrapSlurmCommand(command, jobname, index, output_directory, dependency,
email, threads, deptype, **slurm_params)` (lines 63-156).  `index` is
accepted and unused, as in the source.  Returns the directory list after the
output-directory creation, the full shell command line handed to
`subprocess.run(..., shell=True)`, and the parsed job id of the captured
output (outer `none` = `IndexError` on an empty capture). -/
def WrapSlurmCommand (dirs : List String) (command : Command)
    (jobname : PyVal) (index : PyVal) (output_directory : PyVal)
    (dependency : PyVal) (email : PyVal) (threads : PyVal) (deptype : String)
    (slurm_params : List (String × PyVal)) (captured : String) :
    Except String (List String × String × Option (Option String)) :=
  match (if pyTruthy output_directory then
          (ensureOutputDirectory dirs (pyFormat output_directory)).1
         else Except.ok dirs) with
  | Except.error e => Except.error e
  | Except.ok dirs1 =>
      Except.ok (dirs1,
        wrapCmdline command jobname output_directory dependency email threads
          deptype slurm_params,
        parseJobId captured)

/-- The `#SBATCH --{}={}` passthrough loop of `WriteSlurmFile`
(lines 264-265): every entry is written, with no truthiness check. -/
def renderParamsScript : List (String × PyVal) → String
  | [] => ""
  | p :: rest => "#SBATCH --" ++ p.1 ++ "=" ++ pyFormat p.2 ++ "\n"
      ++ renderParamsScript rest

/-- The shebang plus directive block written by `WriteSlurmFile`
(lines 242-275), in source order: interpreter line, `--job-name`, optional
mail directives, optional dependency, optional `--cpus-per-task`, all
passthrough parameters, optional output/error redirections (array jobs use
`%x-%A_%a`, ordinary jobs `%x-%j`). -/
def scriptHeader (jobname : String) (interpreter : String) (array : List String)
    (output_directory : PyVal) (dependency : PyVal) (threads : PyVal)
    (deptype : String) (email : PyVal) (slurm_params : List (String × PyVal))
    (sysExecutable : String) : String :=
  (if interpreter = "python" then "#!" ++ sysExecutable ++ "\n"
   else if interpreter = "bash" then "#!/bin/bash\n"
   else "#!" ++ interpreter ++ "\n")
  ++ "#SBATCH --job-name=" ++ jobname ++ "\n"
  ++ (if pyTruthy email then
        "#SBATCH --mail-user=" ++ pyFormat email ++ "\n#SBATCH --mail-type=END\n"
      else "")
  ++ (if pyTruthy dependency then
        "#SBATCH --dependency=after" ++ deptype ++ ":" ++ pyFormat dependency ++ "\n"
      else "")
  ++ (if pyTruthy threads then
        "#SBATCH --cpus-per-task=" ++ pyFormat threads ++ "\n" else "")
  ++ renderParamsScript slurm_params
  ++ (if pyTruthy output_directory then
        (if array = [] then
          "#SBATCH --output=" ++ pyFormat output_directory ++ "/%x-%j.out\n"
            ++ "#SBATCH --error=" ++ pyFormat output_directory ++ "/%x-%j.err\n\n"
         else
          "#SBATCH --output=" ++ pyFormat output_directory ++ "/%x-%A_%a.out\n"
            ++ "#SBATCH --error=" ++ pyFormat output_directory ++ "/%x-%A_%a.err\n\n")
      else "")

/-- The job-array preamble of `WriteSlurmFile` (lines 277-282): an array
range `0` to `len(array)-1`, a `%limit` suffix only when `array_limit` is
truthy, the inline `data=(...)` literal of the space-joined values, and the
assignment binding the substitution variable to
`data[$SLURM_ARRAY_TASK_ID]`.  Empty when `array` is falsy. -/
def arraySection (array : List String) (array_limit : PyVal)
    (varName : String) : String :=
  if array = [] then ""
  else
    "#SBATCH --array=0-" ++ toString (array.length - 1)
    ++ (if pyTruthy array_limit then "%" ++ pyFormat array_limit else "")
    ++ "\n\ndata=(" ++ String.intercalate " " array ++ ")\n\n"
    ++ varName ++ "=$\x7bdata[$SLURM_ARRAY_TASK_ID]\x7d\n\n"

/-- The full text `WriteSlurmFile` writes (lines 242-290): header block,
array preamble, a blank line, then the newline-joined command body. -/
def writeSlurmContent (jobname : String) (command : Command)
    (interpreter : String) (array : List String) (varName : String)
    (output_directory : PyVal) (dependency : PyVal) (threads : PyVal)
    (array_limit : PyVal) (deptype : String) (email : PyVal)
    (slurm_params : List (String × PyVal)) (sysExecutable : String) : String :=
  scriptHeader jobname interpreter array output_directory dependency threads
      deptype email slurm_params sysExecutable
  ++ arraySection array array_limit varName
  ++ "\n" ++ String.intercalate "\n" command.toList

/-- `open(filename, 'w')` followed by the writes: creates the file or
overwrites an existing one with the new content. -/
def writeFileTo (files : List (String × String)) (name content : String) :
    List (String × String) :=
  if files.any fun p => p.1 == name then
    files.map fun p => if p.1 == name then (name, content) else p
  else files ++ [(name, content)]

/-- Content of the file at `name`, when it exists. -/
def lookupFile (files : List (String × String)) (name : String) :
    Option String :=
  match files.find? fun p => p.1 == name with
  | some p => some p.2
  | none => none

/-- `WriteSlurmFile(jobname, command, filename, interpreter, array, variable,
output_directory, dependency, threads, array_limit, deptype, email,
**slurm_params)` (lines 159-292).  `varName` is the source's `variable`
parameter (a Lean keyword).  The default filename is `jobname + '.srun'`
when `filename` is falsy (lines 239-240); the directory creation happens
while the file is being written in the source and is sequenced before the
single write here, which is observationally equal for a lone caller.
Returns the updated filesystem and the returned filename. -/
def WriteSlurmFile (fs : FS) (jobname : String) (command : Command)
    (filename : PyVal) (interpreter : String) (array : List String)
    (varName : String) (output_directory : PyVal) (dependency : PyVal)
    (threads : PyVal) (array_limit : PyVal) (deptype : String) (email : PyVal)
    (slurm_params : List (String × PyVal)) (sysExecutable : String) :
    Except String (FS × String) :=
  let fname := if pyTruthy filename then pyFormat filename
               else jobname ++ ".srun"
  match (if pyTruthy output_directory then
          (ensureOutputDirectory fs.dirs (pyFormat output_directory)).1
         else Except.ok fs.dirs) with
  | Except.error e => Except.error e
  | Except.ok dirs1 =>
      Except.ok
        ({ dirs := dirs1,
           files := writeFileTo fs.files fname
             (writeSlurmContent jobname command interpreter array varName
               output_directory dependency threads array_limit deptype email
               slurm_params sysExecutable) },
         fname)

/-- `SlurmJob.WriteSlurmFile(self, filename, interpreter)` (lines 437-469):
raises `ValueError('jobname not set')` when the handle has no `jobname`
attribute (`jobnameAttr = none`), before touching the filesystem; otherwise
sets `self.filename` (the given name, or `jobname.srun` when falsy) and
spreads the handle's attributes into the module-level `WriteSlurmFile`.
Returns the filesystem paired with the result (`Except.error` = raised). -/
def SlurmJob_WriteSlurmFile (fs : FS) (jobnameAttr : Option String)
    (filename : PyVal) (interpreter : String) (command : Command)
    (array : List String) (varName : String) (output_directory : PyVal)
    (dependency : PyVal) (threads : PyVal) (array_limit : PyVal)
    (deptype : String) (email : PyVal) (slurm_params : List (String × PyVal))
    (sysExecutable : String) : FS × Except String String :=
  match jobnameAttr with
  | none => (fs, Except.error "jobname not set")
  | some jn =>
      let selfFilename := if pyTruthy filename then pyFormat filename
                          else jn ++ ".srun"
      match WriteSlurmFile fs jn command (PyVal.str selfFilename) interpreter
          array varName output_directory dependency threads array_limit deptype
          email slurm_params sysExecutable with
      | Except.error e => (fs, Except.error e)
      | Except.ok (fs1, f) => (fs1, Except.ok f)

/-- `JobStatus(jobid)` (lines 320-339) applied to the accounting text that
`JobInfo(jobid, ['jobid','state'], noheader=True)` captured from `sacct`:
for each line of the text, keep the whitespace-split row when it is
non-empty and its first field does not contain a `+` (sub-step rows).
`statusRow` is the per-line test and split
(`if (line.split() and '+' not in line.split()[0])`, lines 337-338). -/
def statusRow (line : String) : Option (List String) :=
  match pySplit line with
  | [] => none
  | t :: ts => if t.data.contains '+' then none else some (t :: ts)

/-- See `statusRow`: the kept rows of the accounting text, in order. -/
def JobStatus (sacct_output : String) : List (List String) :=
  (splitChars (fun c => c = '\n') sacct_output.data []).filterMap statusRow

/-- The `statuses` list of `ShowStatus` (line 375): the second field of each
`JobStatus` row.  `none` models the `IndexError` raised by `x[1]` on a row
with fewer than two fields. -/
def statusStates (sacct_output : String) : Option (List String) :=
  (JobStatus sacct_output).mapM fun row => row.get? 1

/-- The tally printed by `ShowStatus` (lines 372-377): how many rows carry
the given state string (`statuses.count(x)`). -/
def stateCount (sacct_output : String) (state : String) : Option Nat :=
  (statusStates sacct_output).map fun sts => sts.count state

/-- `ShowStatus` (lines 372-377): one `(state, count)` pair per distinct
state.  Python iterates `set(statuses)` in an unspecified order; the
deduplicated first-occurrence order stands in for it, the pairs themselves
being order-independent. -/
def ShowStatus (sacct_output : String) : Option (List (String × Nat)) :=
  (statusStates sacct_output).map fun sts =>
    sts.dedup.map fun st => (st, sts.count st)

/-- `re.search('_[^{}]'.format(index), x)` (line 586): does the character
list contain an underscore immediately followed by a character that is not
one of the characters of `cls` (the decimal text of `index`)?  `re.search`
tries every start position; the pattern matches at a position exactly when
the character there is `_` and a next character outside the class exists. -/
def searchUnderscoreOutside (cls : List Char) : List Char → Bool
  | [] => false
  | a :: rest =>
      (match rest with
       | [] => false
       | b :: _ => (a == '_') && !(cls.contains b))
      || searchUnderscoreOutside cls rest

/-- The filter of `SlurmJob.ShowOutput` (line 586): keep the files the regex
`_[^index]` does not match. -/
def ShowOutputFiles (index : Int) (files : List String) : List String :=
  files.filter fun x =>
    !(searchUnderscoreOutside (toString index).data x.data)

/-- `SlurmJob.ShowOutput` (lines 572-590): the `(path, full text)` pairs it
prints, one per surviving file, reading each through `readFile`. -/
def ShowOutput (readFile : String → String) (index : Int)
    (files : List String) : List (String × String) :=
  (ShowOutputFiles index files).map fun f => (f, readFile f)

/-! ## Helper lemmas -/

/-- The guarded `mkdir` never raises: an existing directory is left alone,
a missing one is appended. -/
theorem ensureOutputDirectory_fst (dirs : List String) (d : String) :
    (ensureOutputDirectory dirs d).1 =
      Except.ok (if dirs.contains d then dirs else dirs ++ [d]) := by
  by_cases hd : d ∈ dirs <;> simp [ensureOutputDirectory, mkdirFS, hd]

/-- What `WrapSlurmCommand` returns, with the directory effect resolved. -/
theorem WrapSlurmCommand_eq (dirs : List String) (command : Command)
    (jobname index output_directory dependency email threads : PyVal)
    (deptype : String) (slurm_params : List (String × PyVal))
    (captured : String) :
    WrapSlurmCommand dirs command jobname index output_directory dependency
        email threads deptype slurm_params captured =
      Except.ok
        ((if pyTruthy output_directory then
            (if dirs.contains (pyFormat output_directory) then dirs
             else dirs ++ [pyFormat output_directory])
          else dirs),
         wrapCmdline command jobname output_directory dependency email threads
           deptype slurm_params,
         parseJobId captured) := by
  unfold WrapSlurmCommand
  by_cases ho : pyTruthy output_directory <;>
    simp [ho, ensureOutputDirectory_fst]

/-- What `WriteSlurmFile` returns, with the directory effect resolved. -/
theorem WriteSlurmFile_eq (fs : FS) (jobname : String) (command : Command)
    (filename : PyVal) (interpreter : String) (array : List String)
    (varName : String) (output_directory dependency threads array_limit : PyVal)
    (deptype : String) (email : PyVal) (slurm_params : List (String × PyVal))
    (sysExecutable : String) :
    WriteSlurmFile fs jobname command filename interpreter array varName
        output_directory dependency threads array_limit deptype email
        slurm_params sysExecutable =
      Except.ok
        ({ dirs := if pyTruthy output_directory then
              (if fs.dirs.contains (pyFormat output_directory) then fs.dirs
               else fs.dirs ++ [pyFormat output_directory])
            else fs.dirs,
           files := writeFileTo fs.files
             (if pyTruthy filename then pyFormat filename
              else jobname ++ ".srun")
             (writeSlurmContent jobname command interpreter array varName
               output_directory dependency threads array_limit deptype email
               slurm_params sysExecutable) },
         if pyTruthy filename then pyFormat filename
         else jobname ++ ".srun") := by
  unfold WriteSlurmFile
  by_cases ho : pyTruthy output_directory <;>
    simp [ho, ensureOutputDirectory_fst]

/-- Every passthrough entry appears in the rendered `--name=value ` run. -/
theorem renderParams_mem (slurm_params : List (String × PyVal)) (n : String)
    (v : PyVal) (h : (n, v) ∈ slurm_params) :
    ∃ a b, renderParams slurm_params =
      a ++ ("--" ++ n ++ "=" ++ pyFormat v ++ " ") ++ b := by
  induction slurm_params with
  | nil => cases h
  | cons p rest ih =>
      rcases List.mem_cons.mp h with h1 | h1
      · refine ⟨"", renderParams rest, ?_⟩
        rw [← h1]
        simp [renderParams]
      · obtain ⟨a, b, hab⟩ := ih h1
        refine ⟨"--" ++ p.1 ++ "=" ++ pyFormat p.2 ++ " " ++ a, b, ?_⟩
        simp [renderParams, hab, String.append_assoc]

/-- Every passthrough entry appears in the rendered `#SBATCH` block. -/
theorem renderParamsScript_mem (slurm_params : List (String × PyVal))
    (n : String) (v : PyVal) (h : (n, v) ∈ slurm_params) :
    ∃ a b, renderParamsScript slurm_params =
      a ++ ("#SBATCH --" ++ n ++ "=" ++ pyFormat v ++ "\n") ++ b := by
  induction slurm_params with
  | nil => cases h
  | cons p rest ih =>
      rcases List.mem_cons.mp h with h1 | h1
      · refine ⟨"", renderParamsScript rest, ?_⟩
        rw [← h1]
        simp [renderParamsScript]
      · obtain ⟨a, b, hab⟩ := ih h1
        refine ⟨"#SBATCH --" ++ p.1 ++ "=" ++ pyFormat p.2 ++ "\n" ++ a, b, ?_⟩
        simp [renderParamsScript, hab, String.append_assoc]

/-- After overwriting an existing entry in place, the lookup finds the new
content. -/
theorem find_update (name content : String) (files : List (String × String)) :
    (files.any fun p => p.1 == name) = true →
    List.find? (fun p => p.1 == name)
        (files.map fun p => if p.1 == name then (name, content) else p)
      = some (name, content) := by
  induction files with
  | nil => intro h; simp at h
  | cons q rest ih =>
      intro h
      by_cases hq : (q.1 == name) = true
      · simp [List.find?, hq]
      · have hr : (rest.any fun p => p.1 == name) = true := by
          rcases List.any_eq_true.mp h with ⟨p, hp, hpe⟩
          rcases List.mem_cons.mp hp with heq | hp2
          · subst heq; exact absurd hpe hq
          · exact List.any_eq_true.mpr ⟨p, hp2, hpe⟩
        simpa [List.find?, hq, Bool.not_eq_true] using ih hr

/-- Appending a fresh entry after a miss makes the lookup find it. -/
theorem find_append (name content : String) (files : List (String × String)) :
    (files.any fun p => p.1 == name) = false →
    List.find? (fun p => p.1 == name) (files ++ [(name, content)])
      = some (name, content) := by
  induction files with
  | nil => intro _; simp [List.find?]
  | cons q rest ih =>
      intro h
      have hq : (q.1 == name) = false := by
        cases hqe : q.1 == name
        · rfl
        · rw [List.any_cons, hqe] at h; simp at h
      have hr : (rest.any fun p => p.1 == name) = false := by
        cases hre : rest.any fun p => p.1 == name
        · rfl
        · rw [List.any_cons, hre] at h; simp at h
      simpa [List.find?, hq, Bool.not_eq_true] using ih hr

/-- A substring decomposition survives appending on the left. -/
theorem mem_append_ext_left {x y m : String}
    (h : ∃ a b, y = a ++ m ++ b) : ∃ a b, x ++ y = a ++ m ++ b := by
  obtain ⟨a, b, rfl⟩ := h
  exact ⟨x ++ a, b, by simp [String.append_assoc]⟩

/-- A substring decomposition survives appending on the right. -/
theorem mem_append_ext_right {y z m : String}
    (h : ∃ a b, y = a ++ m ++ b) : ∃ a b, y ++ z = a ++ m ++ b := by
  obtain ⟨a, b, rfl⟩ := h
  exact ⟨a, b ++ z, by simp [String.append_assoc]⟩

/-- The right operand of an append is a substring of it. -/
theorem mem_append_here {x m : String} : ∃ a b, x ++ m = a ++ m ++ b :=
  ⟨x, "", by simp⟩

/-- Every passthrough entry surfaces in the full `sbatch` command line that
`WrapSlurmCommand` builds, whatever its truthiness. -/
theorem wrapCmdline_mem (command : Command)
    (jobname output_directory dependency email threads : PyVal)
    (deptype : String) (slurm_params : List (String × PyVal)) (n : String)
    (v : PyVal) (h : (n, v) ∈ slurm_params) :
    ∃ a b, wrapCmdline command jobname output_directory dependency email
        threads deptype slurm_params
      = a ++ ("--" ++ n ++ "=" ++ pyFormat v ++ " ") ++ b := by
  simp only [wrapCmdline]
  apply mem_append_ext_right
  apply mem_append_ext_right
  apply mem_append_ext_right
  by_cases ho : pyTruthy output_directory
  · simp only [ho, if_true]
    apply mem_append_ext_right
    apply mem_append_ext_right
    apply mem_append_ext_right
    apply mem_append_ext_right
    apply mem_append_ext_right
    apply mem_append_ext_right
    apply mem_append_ext_left
    exact renderParams_mem slurm_params n v h
  · simp only [ho, if_false]
    apply mem_append_ext_left
    exact renderParams_mem slurm_params n v h

/-- Every passthrough entry surfaces in the script header block. -/
theorem scriptHeader_mem (jobname interpreter : String) (array : List String)
    (output_directory dependency threads : PyVal) (deptype : String)
    (email : PyVal) (slurm_params : List (String × PyVal))
    (sysExecutable : String) (n : String) (v : PyVal)
    (h : (n, v) ∈ slurm_params) :
    ∃ a b, scriptHeader jobname interpreter array output_directory dependency
        threads deptype email slurm_params sysExecutable
      = a ++ ("#SBATCH --" ++ n ++ "=" ++ pyFormat v ++ "\n") ++ b := by
  simp only [scriptHeader]
  apply mem_append_ext_right
  apply mem_append_ext_left
  exact renderParamsScript_mem slurm_params n v h

/-- Every passthrough entry surfaces in the full script text. -/
theorem writeSlurmContent_mem (jobname : String) (command : Command)
    (interpreter : String) (array : List String) (varName : String)
    (output_directory dependency threads array_limit : PyVal)
    (deptype : String) (email : PyVal) (slurm_params : List (String × PyVal))
    (sysExecutable : String) (n : String) (v : PyVal)
    (h : (n, v) ∈ slurm_params) :
    ∃ a b, writeSlurmContent jobname command interpreter array varName
        output_directory dependency threads array_limit deptype email
        slurm_params sysExecutable
      = a ++ ("#SBATCH --" ++ n ++ "=" ++ pyFormat v ++ "\n") ++ b := by
  simp only [writeSlurmContent]
  apply mem_append_ext_right
  apply mem_append_ext_right
  apply mem_append_ext_right
  exact scriptHeader_mem jobname interpreter array output_directory dependency
    threads deptype email slurm_params sysExecutable n v h

/-- A falsy `threads` leaves the wrap command line exactly as `threads=None`
does: no `--cpus-per-task` directive is emitted. -/
theorem wrapCmdline_threads_falsy (command : Command)
    (jobname output_directory dependency email threads : PyVal)
    (deptype : String) (slurm_params : List (String × PyVal))
    (h : pyTruthy threads = false) :
    wrapCmdline command jobname output_directory dependency email threads
        deptype slurm_params
      = wrapCmdline command jobname output_directory dependency email
          PyVal.none deptype slurm_params := by
  have hnone : pyTruthy PyVal.none = false := rfl
  simp [wrapCmdline, h, hnone]

/-- A falsy `threads` leaves the script header exactly as `threads=None`
does: no `#SBATCH --cpus-per-task` line is written. -/
theorem scriptHeader_threads_falsy (jobname interpreter : String)
    (array : List String) (output_directory dependency threads : PyVal)
    (deptype : String) (email : PyVal) (slurm_params : List (String × PyVal))
    (sysExecutable : String) (h : pyTruthy threads = false) :
    scriptHeader jobname interpreter array output_directory dependency threads
        deptype email slurm_params sysExecutable
      = scriptHeader jobname interpreter array output_directory dependency
          PyVal.none deptype email slurm_params sysExecutable := by
  have hnone : pyTruthy PyVal.none = false := rfl
  simp [scriptHeader, h, hnone]

/-- Reading back the file just written yields the written content. -/
theorem lookupFile_writeFileTo (files : List (String × String))
    (name content : String) :
    lookupFile (writeFileTo files name content) name = some content := by
  unfold writeFileTo lookupFile
  by_cases hany : (files.any fun p => p.1 == name) = true
  · rw [if_pos hany, find_update name content files hany]
  · rw [if_neg hany,
      find_append name content files (Bool.of_not_eq_true hany)]

/-! ## C1 and C3 -/

/-- C1 (amended): for every captured text with at least one
whitespace-separated token, the shared result parsing returns the last token
as the job id when the first token is the literal `Submitted`, and `None`
otherwise; in particular `"Submitted batch job 12345\n"` yields `"12345"` and
an `sbatch` error message yields `None`.  (The original claim quantified over
every captured text; an empty or all-whitespace text makes `split()[0]` raise
`IndexError` instead of returning `None`, see the counterexample.) -/
theorem C1_result_parsing (captured : String) (h : pySplit captured ≠ []) :
    (parseJobId captured =
      some (if (pySplit captured).head? = some "Submitted"
            then (pySplit captured).getLast? else none))
    ∧ parseJobId "Submitted batch job 12345\n" = some (some "12345")
    ∧ parseJobId "sbatch: error: invalid partition" = some none := by
  refine ⟨?_, by decide, by decide⟩
  unfold parseJobId
  cases hs : pySplit captured with
  | nil => exact absurd hs h
  | cons t ts =>
      by_cases ht : t = "Submitted"
      · subst ht
        simp [List.getLast?_eq_getLast ("Submitted" :: ts) (List.cons_ne_nil _ _)]
      · simp [ht]

/-- C1 witness: the amended parsing law instantiated at the success message. -/
theorem C1_result_parsing_witness :
    (parseJobId "Submitted batch job 12345\n" =
      some (if (pySplit "Submitted batch job 12345\n").head? = some "Submitted"
            then (pySplit "Submitted batch job 12345\n").getLast? else none))
    ∧ parseJobId "Submitted batch job 12345\n" = some (some "12345")
    ∧ parseJobId "sbatch: error: invalid partition" = some none :=
  C1_result_parsing "Submitted batch job 12345\n" (by decide)

/-- C1 counterexample: on an empty captured text the claim as stated is
false — `stdout.split()[0]` raises `IndexError` (modelled by the outer
`none`) instead of absorbing the failure into a `None` result. -/
theorem C1_counterexample : parseJobId "" = none := by decide

/-- C3: for every path that does not exist on the filesystem,
`SubmitSlurmFile` prints a not-found message and returns `None` without ever
invoking `sbatch`, and raises no exception (the returned job id is
`some none`: a normal return of `None`, not the exception layer). -/
theorem C3_missing_file (fs : FS) (filename : String)
    (slurm_params : List (String × PyVal)) (captured : String)
    (h : pathExists fs filename = false) :
    SubmitSlurmFile fs filename slurm_params captured =
      { jobid := some none, invoked := false, argv := [],
        printed := [filename ++ " not found"] } := by
  unfold SubmitSlurmFile
  simp [h]

/-- C3 witness: submitting `missing.srun` on an empty filesystem. -/
theorem C3_missing_file_witness :
    SubmitSlurmFile ⟨[], []⟩ "missing.srun" [] "Submitted batch job 1" =
      { jobid := some none, invoked := false, argv := [],
        printed := ["missing.srun not found"] } :=
  C3_missing_file ⟨[], []⟩ "missing.srun" [] "Submitted batch job 1" (by decide)

/-! ## C2 -/

/-- C2 counterexample: the claim says a passthrough entry with a falsy value
is silently skipped, but `WrapSlurmCommand` renders the falsy entry
`partition=''` as the directive `--partition= ` all the same — the
passthrough loops (lines 133-134 and 264-265) have no truthiness check. -/
theorem C2_counterexample :
    WrapSlurmCommand [] (Command.str "echo hi") PyVal.none PyVal.none
        PyVal.none PyVal.none PyVal.none PyVal.none "ok"
        [("partition", PyVal.str "")] "x"
      = Except.ok ([], "sbatch --partition= --wrap \"echo hi\"", some none) := rfl

/-- C2 (amended): every passthrough mapping entry — truthy or falsy — is
rendered as a `--name=value` directive in the command line built by
`WrapSlurmCommand` and as a `#SBATCH --name=value` line in the script text
of `WriteSlurmFile`; only the named options are truthiness-guarded, so a
caller passing `threads=0` does get no `cpus-per-task` directive (the
output is identical to `threads=None`). -/
theorem C2_passthrough_directives (dirs : List String) (command : Command)
    (jobname index output_directory dependency email : PyVal)
    (deptype : String) (slurm_params : List (String × PyVal))
    (captured : String) (jobname2 : String) (interpreter : String)
    (array : List String) (varName : String) (array_limit : PyVal)
    (sysExecutable : String) (n : String) (v : PyVal)
    (h : (n, v) ∈ slurm_params) :
    (∀ dirs1 slurm jid,
        WrapSlurmCommand dirs command jobname index output_directory
            dependency email PyVal.none deptype slurm_params captured
          = Except.ok (dirs1, slurm, jid) →
        ∃ a b, slurm = a ++ ("--" ++ n ++ "=" ++ pyFormat v ++ " ") ++ b)
    ∧ (∃ a b,
        writeSlurmContent jobname2 command interpreter array varName
            output_directory dependency PyVal.none array_limit deptype email
            slurm_params sysExecutable
          = a ++ ("#SBATCH --" ++ n ++ "=" ++ pyFormat v ++ "\n") ++ b)
    ∧ WrapSlurmCommand dirs command jobname index output_directory dependency
          email (PyVal.int 0) deptype slurm_params captured
      = WrapSlurmCommand dirs command jobname index output_directory dependency
          email PyVal.none deptype slurm_params captured
    ∧ writeSlurmContent jobname2 command interpreter array varName
          output_directory dependency (PyVal.int 0) array_limit deptype email
          slurm_params sysExecutable
      = writeSlurmContent jobname2 command interpreter array varName
          output_directory dependency PyVal.none array_limit deptype email
          slurm_params sysExecutable := by
  refine ⟨?_, ?_, ?_, ?_⟩
  · intro dirs1 slurm jid heq
    rw [WrapSlurmCommand_eq] at heq
    injection heq with h3
    injection h3 with hA hBC
    injection hBC with hB hC
    rw [← hB]
    exact wrapCmdline_mem command jobname output_directory dependency email
      PyVal.none deptype slurm_params n v h
  · exact writeSlurmContent_mem jobname2 command interpreter array varName
      output_directory dependency PyVal.none array_limit deptype email
      slurm_params sysExecutable n v h
  · rw [WrapSlurmCommand_eq, WrapSlurmCommand_eq,
      wrapCmdline_threads_falsy command jobname output_directory dependency
        email (PyVal.int 0) deptype slurm_params (by decide)]
  · unfold writeSlurmContent
    rw [scriptHeader_threads_falsy jobname2 interpreter array output_directory
      dependency (PyVal.int 0) deptype email slurm_params sysExecutable
      (by decide)]

/-- C2 witness: the amended rendering law at a concrete passthrough list. -/
theorem C2_passthrough_directives_witness :
    (∀ dirs1 slurm jid,
        WrapSlurmCommand [] (Command.str "c") PyVal.none PyVal.none
            PyVal.none PyVal.none PyVal.none PyVal.none "ok"
            [("partition", PyVal.str "")] "x"
          = Except.ok (dirs1, slurm, jid) →
        ∃ a b, slurm = a ++ ("--partition=" ++ pyFormat (PyVal.str "") ++ " ") ++ b)
    ∧ (∃ a b,
        writeSlurmContent "j" (Command.str "c") "bash" [] "x" PyVal.none
            PyVal.none PyVal.none PyVal.none "ok" PyVal.none
            [("partition", PyVal.str "")] "/usr/bin/python3"
          = a ++ ("#SBATCH --partition=" ++ pyFormat (PyVal.str "") ++ "\n") ++ b)
    ∧ WrapSlurmCommand [] (Command.str "c") PyVal.none PyVal.none PyVal.none
          PyVal.none PyVal.none (PyVal.int 0) "ok"
          [("partition", PyVal.str "")] "x"
      = WrapSlurmCommand [] (Command.str "c") PyVal.none PyVal.none PyVal.none
          PyVal.none PyVal.none PyVal.none "ok"
          [("partition", PyVal.str "")] "x"
    ∧ writeSlurmContent "j" (Command.str "c") "bash" [] "x" PyVal.none
          PyVal.none (PyVal.int 0) PyVal.none "ok" PyVal.none
          [("partition", PyVal.str "")] "/usr/bin/python3"
      = writeSlurmContent "j" (Command.str "c") "bash" [] "x" PyVal.none
          PyVal.none PyVal.none PyVal.none "ok" PyVal.none
          [("partition", PyVal.str "")] "/usr/bin/python3" := by
  have hmem : ("partition", PyVal.str "") ∈ [("partition", PyVal.str "")] := by
    decide
  have h2 := C2_passthrough_directives [] (Command.str "c") PyVal.none
    PyVal.none PyVal.none PyVal.none PyVal.none "ok"
    [("partition", PyVal.str "")] "x" "j" "bash" [] "x" PyVal.none
    "/usr/bin/python3" "partition" (PyVal.str "") hmem
  exact h2

/-! ## C4 -/

/-- C4 counterexample: `array_limit = 0` is a given concurrency cap, yet the
claim's `%limit` suffix does not appear: `if array_limit:` (line 279) treats
the zero cap as absent, so the written text is `--array=0-0` with no `%` at
all. -/
theorem C4_counterexample :
    writeSlurmContent "j" (Command.str "echo $x") "bash" ["a"] "x" PyVal.none
        PyVal.none PyVal.none (PyVal.int 0) "ok" PyVal.none []
        "/usr/bin/python3"
      = "#!/bin/bash\n#SBATCH --job-name=j\n#SBATCH --array=0-0\n\ndata=(a)\n\nx=$\x7bdata[$SLURM_ARRAY_TASK_ID]\x7d\n\n\necho $x"
    ∧ (writeSlurmContent "j" (Command.str "echo $x") "bash" ["a"] "x"
        PyVal.none PyVal.none PyVal.none (PyVal.int 0) "ok" PyVal.none []
        "/usr/bin/python3").data.contains '%' = false := by
  constructor <;> decide

/-- C4 (amended): for every non-empty array value list of length `k`, the
script contains `#SBATCH --array=0-(k-1)`, suffixed with `%limit` exactly
when a truthy (non-`None`, nonzero) concurrency cap is given, followed by
the inline `data=(...)` literal of the space-joined values and the
assignment binding the substitution variable to the entry indexed by
`SLURM_ARRAY_TASK_ID`, and then the command body. -/
theorem C4_array_directive (jobname : String) (command : Command)
    (interpreter : String) (array : List String) (varName : String)
    (output_directory dependency threads array_limit : PyVal)
    (deptype : String) (email : PyVal) (slurm_params : List (String × PyVal))
    (sysExecutable : String) (h : array ≠ []) :
    ∃ pre,
      writeSlurmContent jobname command interpreter array varName
          output_directory dependency threads array_limit deptype email
          slurm_params sysExecutable
        = pre
          ++ ("#SBATCH --array=0-" ++ toString (array.length - 1)
              ++ (if pyTruthy array_limit then "%" ++ pyFormat array_limit
                  else "")
              ++ "\n\ndata=(" ++ String.intercalate " " array ++ ")\n\n"
              ++ varName ++ "=$\x7bdata[$SLURM_ARRAY_TASK_ID]\x7d\n\n")
          ++ "\n" ++ String.intercalate "\n" command.toList := by
  refine ⟨scriptHeader jobname interpreter array output_directory dependency
    threads deptype email slurm_params sysExecutable, ?_⟩
  unfold writeSlurmContent arraySection
  rw [if_neg h]

/-- C4 witness: a two-element array with a truthy cap of 4 yields the
`0-1%4` range followed by the data literal and the assignment. -/
theorem C4_array_directive_witness :
    ∃ pre,
      writeSlurmContent "j" (Command.str "echo $x") "bash" ["a", "b"] "x"
          PyVal.none PyVal.none PyVal.none (PyVal.int 4) "ok" PyVal.none []
          "/usr/bin/python3"
        = pre
          ++ ("#SBATCH --array=0-" ++ toString (["a", "b"].length - 1)
              ++ (if pyTruthy (PyVal.int 4) then "%" ++ pyFormat (PyVal.int 4)
                  else "")
              ++ "\n\ndata=(" ++ String.intercalate " " ["a", "b"] ++ ")\n\n"
              ++ "x" ++ "=$\x7bdata[$SLURM_ARRAY_TASK_ID]\x7d\n\n")
          ++ "\n" ++ String.intercalate "\n" (Command.str "echo $x").toList :=
  C4_array_directive "j" (Command.str "echo $x") "bash" ["a", "b"] "x"
    PyVal.none PyVal.none PyVal.none (PyVal.int 4) "ok" PyVal.none []
    "/usr/bin/python3" (by decide)

/-! ## C5 -/

/-- C5: `SlurmJob.WriteSlurmFile` raises `ValueError('jobname not set')` when
the handle has no `jobname` attribute, leaving the filesystem untouched (no
file is created); for every handle with a jobname set, no such error is
raised — the call returns a filename. -/
theorem C5_jobname_required (fs : FS) (filename : PyVal) (interpreter : String)
    (command : Command) (array : List String) (varName : String)
    (output_directory dependency threads array_limit : PyVal)
    (deptype : String) (email : PyVal) (slurm_params : List (String × PyVal))
    (sysExecutable : String) :
    (SlurmJob_WriteSlurmFile fs none filename interpreter command array
        varName output_directory dependency threads array_limit deptype email
        slurm_params sysExecutable
      = (fs, Except.error "jobname not set"))
    ∧ ∀ jn : String, ∃ f,
        (SlurmJob_WriteSlurmFile fs (some jn) filename interpreter command
            array varName output_directory dependency threads array_limit
            deptype email slurm_params sysExecutable).2 = Except.ok f := by
  constructor
  · rfl
  · intro jn
    simp only [SlurmJob_WriteSlurmFile]
    rw [WriteSlurmFile_eq]
    exact ⟨_, rfl⟩

/-! ## C6 -/

/-- A kept status row is non-empty and its id field has no `+`. -/
theorem statusRow_some (line : String) (row : List String)
    (h : statusRow line = some row) :
    ∃ t ts, row = t :: ts ∧ t.data.contains '+' = false := by
  cases hs : pySplit line with
  | nil =>
      simp only [statusRow, hs] at h
      exact Option.noConfusion h
  | cons t ts =>
      simp only [statusRow, hs] at h
      by_cases hp : t.data.contains '+' = true
      · rw [if_pos hp] at h
        exact Option.noConfusion h
      · refine ⟨t, ts, ?_, Bool.of_not_eq_true hp⟩
        rw [if_neg hp] at h
        exact (Option.some.inj h).symm

/-- C6: status summarization parses the accounting text into
whitespace-split rows, every kept row has an id field free of `+`, and on
the spec's example rows the tally is `COMPLETED: 2, RUNNING: 1`, the
`1+1` sub-step row contributing nothing. -/
theorem C6_status_tally :
    JobStatus "1 COMPLETED\n2 RUNNING\n3 COMPLETED"
      = [["1", "COMPLETED"], ["2", "RUNNING"], ["3", "COMPLETED"]]
    ∧ stateCount "1 COMPLETED\n2 RUNNING\n3 COMPLETED" "COMPLETED" = some 2
    ∧ stateCount "1 COMPLETED\n2 RUNNING\n3 COMPLETED" "RUNNING" = some 1
    ∧ JobStatus "1 COMPLETED\n1+1 COMPLETED\n2 RUNNING\n3 COMPLETED"
      = [["1", "COMPLETED"], ["2", "RUNNING"], ["3", "COMPLETED"]]
    ∧ stateCount "1 COMPLETED\n1+1 COMPLETED\n2 RUNNING\n3 COMPLETED"
        "COMPLETED" = some 2
    ∧ ShowStatus "1 COMPLETED\n2 RUNNING\n3 COMPLETED"
      = some [("RUNNING", 1), ("COMPLETED", 2)]
    ∧ (∀ text row, row ∈ JobStatus text →
        ∃ t ts, row = t :: ts ∧ t.data.contains '+' = false) := by
  refine ⟨by decide, by decide, by decide, by decide, by decide, by decide, ?_⟩
  intro text row hrow
  obtain ⟨line, -, hline⟩ := List.mem_filterMap.mp hrow
  exact statusRow_some line row hline

/-! ## C7 -/

/-- The default script name `jobname + '.srun'` is never the empty string,
so it is truthy when fed back into the module-level `WriteSlurmFile`. -/
theorem srun_filename_truthy (jobname : String) :
    pyTruthy (PyVal.str (jobname ++ ".srun")) = true := by
  have h5 : (jobname ++ ".srun").length = jobname.length + 5 := by
    rw [String.length_append]
    rfl
  simp only [pyTruthy]
  rw [bne_iff_ne]
  intro h
  rw [h] at h5
  rw [show ("" : String).length = 0 from rfl] at h5
  omega

/-- C7: for every job name `N`, `WriteSlurmFile` with no explicit filename
returns the path `N ++ ".srun"`, and that path holds the script text just
written; `SlurmJob.WriteSlurmFile` with no filename argument returns the
same path. -/
theorem C7_default_filename (fs : FS) (jobname : String) (command : Command)
    (interpreter : String) (array : List String) (varName : String)
    (output_directory dependency threads array_limit : PyVal)
    (deptype : String) (email : PyVal) (slurm_params : List (String × PyVal))
    (sysExecutable : String) :
    (∃ fs1,
      WriteSlurmFile fs jobname command PyVal.none interpreter array varName
          output_directory dependency threads array_limit deptype email
          slurm_params sysExecutable
        = Except.ok (fs1, jobname ++ ".srun")
      ∧ lookupFile fs1.files (jobname ++ ".srun")
        = some (writeSlurmContent jobname command interpreter array varName
            output_directory dependency threads array_limit deptype email
            slurm_params sysExecutable))
    ∧ (SlurmJob_WriteSlurmFile fs (some jobname) PyVal.none interpreter
        command array varName output_directory dependency threads array_limit
        deptype email slurm_params sysExecutable).2
      = Except.ok (jobname ++ ".srun") := by
  have hnone : pyTruthy PyVal.none = false := rfl
  constructor
  · have heq := WriteSlurmFile_eq fs jobname command PyVal.none interpreter
      array varName output_directory dependency threads array_limit deptype
      email slurm_params sysExecutable
    simp only [hnone, Bool.false_eq_true, if_false] at heq
    exact ⟨_, heq, lookupFile_writeFileTo fs.files (jobname ++ ".srun") _⟩
  · simp only [SlurmJob_WriteSlurmFile]
    rw [WriteSlurmFile_eq]
    simp only [hnone, Bool.false_eq_true, if_false,
      srun_filename_truthy jobname, if_true]
    rfl

/-! ## C8 -/

/-- Unfolding: the empty text never matches. -/
theorem searchUnderscoreOutside_nil (cls : List Char) :
    searchUnderscoreOutside cls [] = false := rfl

/-- Unfolding: a one-character text never matches. -/
theorem searchUnderscoreOutside_one (cls : List Char) (a : Char) :
    searchUnderscoreOutside cls [a] = false := rfl

/-- Unfolding: a match at the head, or anywhere in the tail. -/
theorem searchUnderscoreOutside_cons2 (cls : List Char) (a b : Char)
    (tail : List Char) :
    searchUnderscoreOutside cls (a :: b :: tail)
      = (((a == '_') && !(cls.contains b))
          || searchUnderscoreOutside cls (b :: tail)) := rfl

/-- `re.search('_[^cls]', x)` succeeds exactly when the text decomposes
around an underscore followed by a character outside the class. -/
theorem searchUnderscoreOutside_iff (cls : List Char) (l : List Char) :
    searchUnderscoreOutside cls l = true ↔
      ∃ pre c post, l = pre ++ '_' :: c :: post ∧ cls.contains c = false := by
  induction l with
  | nil =>
      rw [searchUnderscoreOutside_nil]
      simp only [Bool.false_eq_true, false_iff]
      rintro ⟨pre, c, post, h, -⟩
      have hl := congrArg List.length h
      simp only [List.length_nil, List.length_append, List.length_cons] at hl
      omega
  | cons a rest ih =>
      cases rest with
      | nil =>
          rw [searchUnderscoreOutside_one]
          simp only [Bool.false_eq_true, false_iff]
          rintro ⟨pre, c, post, h, -⟩
          have hl := congrArg List.length h
          simp only [List.length_cons, List.length_nil, List.length_append]
            at hl
          omega
      | cons b tail =>
          constructor
          · intro h
            rw [searchUnderscoreOutside_cons2] at h
            rcases Bool.or_eq_true_iff.mp h with h1 | h1
            · obtain ⟨ha, hb⟩ := Bool.and_eq_true_iff.mp h1
              refine ⟨[], b, tail, ?_, ?_⟩
              · rw [List.nil_append, beq_iff_eq.mp ha]
              · simpa using hb
            · obtain ⟨pre, c, post, hEq, hc⟩ := ih.mp h1
              exact ⟨a :: pre, c, post, by rw [List.cons_append, hEq], hc⟩
          · rintro ⟨pre, c, post, hEq, hc⟩
            cases pre with
            | nil =>
                simp only [List.nil_append] at hEq
                injection hEq with h1 h2
                injection h2 with h3 h4
                have hbc : cls.contains b = false := by rw [h3]; exact hc
                have hcond : ((a == '_') && !(cls.contains b)) = true := by
                  rw [h1, hbc]; rfl
                rw [searchUnderscoreOutside_cons2, hcond, Bool.true_or]
            | cons p pre2 =>
                rw [List.cons_append] at hEq
                injection hEq with h1 h2
                have hr : searchUnderscoreOutside cls (b :: tail) = true :=
                  ih.mpr ⟨pre2, c, post, h2, hc⟩
                rw [searchUnderscoreOutside_cons2, hr, Bool.or_true]

/-- C8 counterexample: with requested index 1, the file for task 10
(`helloarray-7_10.out`) survives the filter and is shown even though its
task-array suffix `10` does not match the index — the single-character
class `[^1]` cannot express a multi-digit suffix comparison. -/
theorem C8_counterexample :
    ShowOutputFiles 1 ["helloarray-7_1.out", "helloarray-7_10.out"]
      = ["helloarray-7_1.out", "helloarray-7_10.out"]
    ∧ ShowOutputFiles 1 ["helloarray-7_1.out", "helloarray-7_10.out"]
      ≠ ["helloarray-7_1.out"] := by
  constructor
  · rfl
  · decide

/-- C8 (amended): `ShowOutput` keeps exactly the discovered files in which
no underscore is immediately followed by a character outside the decimal
text of the requested index (the `re.search('_[^index]', x)` test) — only
for single-digit indices and single-underscore, single-digit-suffix names
does this coincide with excluding the files whose task-array suffix
differs — and prints the full text of each kept file. -/
theorem C8_show_output (readFile : String → String) (index : Int)
    (files : List String) (x : String) :
    (x ∈ ShowOutputFiles index files ↔
      x ∈ files ∧
        ¬ ∃ pre c post, x.data = pre ++ '_' :: c :: post
            ∧ (toString index).data.contains c = false)
    ∧ ShowOutput readFile index files
      = (ShowOutputFiles index files).map fun f => (f, readFile f) := by
  refine ⟨?_, rfl⟩
  unfold ShowOutputFiles
  rw [List.mem_filter]
  constructor
  · rintro ⟨hx, hp⟩
    refine ⟨hx, ?_⟩
    intro hex
    rw [← searchUnderscoreOutside_iff] at hex
    rw [hex] at hp
    exact absurd hp (by simp)
  · rintro ⟨hx, hne⟩
    refine ⟨hx, ?_⟩
    cases hse : searchUnderscoreOutside (toString index).data x.data
    · rfl
    · exact absurd ((searchUnderscoreOutside_iff _ _).mp hse) hne

/-! ## C9 -/

/-- C9: output-directory creation is idempotent in effect — an existing
directory triggers no `mkdir` and no error, a second call on the resulting
state changes nothing, and both `WrapSlurmCommand` and `WriteSlurmFile`
leave the directory list untouched when the configured directory already
exists. -/
theorem C9_mkdir_idempotent (dirs : List String) (d : String) (fs : FS)
    (command : Command) (jobname index dependency email threads : PyVal)
    (deptype : String) (ps : List (String × PyVal)) (captured : String)
    (jobname2 : String) (filename : PyVal) (interpreter : String)
    (array : List String) (varName : String)
    (dependency2 threads2 array_limit : PyVal) (deptype2 : String)
    (email2 : PyVal) (ps2 : List (String × PyVal)) (sysExecutable : String) :
    (dirs.contains d = true →
        ensureOutputDirectory dirs d = (Except.ok dirs, false))
    ∧ (∀ dirs1, (ensureOutputDirectory dirs d).1 = Except.ok dirs1 →
        ensureOutputDirectory dirs1 d = (Except.ok dirs1, false))
    ∧ (dirs.contains d = true →
        ∃ s jid, WrapSlurmCommand dirs command jobname index (PyVal.str d)
            dependency email threads deptype ps captured
          = Except.ok (dirs, s, jid))
    ∧ (fs.dirs.contains d = true →
        ∃ fs1 f, WriteSlurmFile fs jobname2 command filename interpreter
            array varName (PyVal.str d) dependency2 threads2 array_limit
            deptype2 email2 ps2 sysExecutable
          = Except.ok (fs1, f) ∧ fs1.dirs = fs.dirs) := by
  refine ⟨?_, ?_, ?_, ?_⟩
  · intro h
    have hm : d ∈ dirs := by simpa using h
    simp [ensureOutputDirectory, hm]
  · intro dirs1 h1
    rw [ensureOutputDirectory_fst] at h1
    have hd1 : dirs1 = if dirs.contains d then dirs else dirs ++ [d] :=
      (Except.ok.inj h1).symm
    have hm : d ∈ dirs1 := by
      rw [hd1]
      by_cases hc : d ∈ dirs <;> simp [hc]
    simp [ensureOutputDirectory, hm]
  · intro h
    have hm : d ∈ dirs := by simpa using h
    refine ⟨wrapCmdline command jobname (PyVal.str d) dependency email threads
      deptype ps, parseJobId captured, ?_⟩
    rw [WrapSlurmCommand_eq]
    by_cases hd : pyTruthy (PyVal.str d) <;> simp [hd, pyFormat, hm]
  · intro h
    have hm : d ∈ fs.dirs := by simpa using h
    refine ⟨_, _, WriteSlurmFile_eq fs jobname2 command filename interpreter
      array varName (PyVal.str d) dependency2 threads2 array_limit deptype2
      email2 ps2 sysExecutable, ?_⟩
    by_cases hd : pyTruthy (PyVal.str d) <;> simp [hd, pyFormat, hm]

/-! ## C10 -/

/-- C10: passing the command body as a bare string `s` is equivalent to
passing the singleton list `[s]`: `WrapSlurmCommand` builds the identical
shell command line and state, and `WriteSlurmFile` writes the identical
script file, all other parameters held fixed. -/
theorem C10_string_singleton_equiv (dirs : List String) (s : String)
    (jobname index output_directory dependency email threads : PyVal)
    (deptype : String) (ps : List (String × PyVal)) (captured : String)
    (fs : FS) (jobname2 : String) (filename : PyVal) (interpreter : String)
    (array : List String) (varName : String)
    (output_directory2 dependency2 threads2 array_limit : PyVal)
    (deptype2 : String) (email2 : PyVal) (ps2 : List (String × PyVal))
    (sysExecutable : String) :
    WrapSlurmCommand dirs (Command.str s) jobname index output_directory
        dependency email threads deptype ps captured
      = WrapSlurmCommand dirs (Command.list [s]) jobname index
          output_directory dependency email threads deptype ps captured
    ∧ WriteSlurmFile fs jobname2 (Command.str s) filename interpreter array
        varName output_directory2 dependency2 threads2 array_limit deptype2
        email2 ps2 sysExecutable
      = WriteSlurmFile fs jobname2 (Command.list [s]) filename interpreter
          array varName output_directory2 dependency2 threads2 array_limit
          deptype2 email2 ps2 sysExecutable :=
  ⟨rfl, rfl⟩

end Slurmpy
